import Mathlib

/-!
Verification of the pdf-rasterizer content-stream interpreter (`src/lib.rs`).

Modelling conventions:
* `f32` values are modelled as exact rationals `ℚ` (the algebraic
  idealization of the floating-point arithmetic in the source).
* Byte vectors (`Vec<u8>`) are `List Nat`; PDF name atoms and dictionary
  keys are `String` (lopdf stores them as byte vectors; the keys used by
  the source are ASCII).
* The graphics-state stack (a `Vec<GraphicsState>` used as a stack with
  push/pop/last at the end) is modelled as a list with the stack top at
  the head of the list.
* The lopdf document is an external oracle (spec section 6); it is
  modelled as finite tables.  Stream objects carry their
  already-decompressed bytes, and page content is stored as the decoded
  operator sequence (`Content::decode` is part of the oracle).
* The rusttype font parser is external; a parsed face is abstracted as a
  finite table `RTFont` answering the pixel-bounding-box queries that
  `draw_text` makes, and `Document.fontPrograms` plays the role of
  `rusttype::Font::try_from_vec` (absence from the table = parse
  failure).
* The femtovg canvas is modelled by its dimensions plus the ordered list
  of drawing `Emission`s it receives; the pixel contents of rasterized
  glyph images are abstracted away.
* A Rust `Result::Err` is `Outcome.error`; a Rust panic (from `unwrap`)
  is `Outcome.panicked`.  The `?` operator is `Outcome.bind`.
-/

/-- Result of running a fallible (or panicking) piece of the source. -/
inductive Outcome (α : Type) where
  | ok : α → Outcome α
  | error : String → Outcome α
  | panicked : String → Outcome α
  deriving DecidableEq

/-- Monadic bind on `Outcome`, the model of Rust's `?` operator. -/
def Outcome.bind {α β : Type} : Outcome α → (α → Outcome β) → Outcome β
  | Outcome.ok a, f => f a
  | Outcome.error e, _ => Outcome.error e
  | Outcome.panicked m, _ => Outcome.panicked m

/-- Whether an outcome is a success. -/
def Outcome.isOk {α : Type} : Outcome α → Bool
  | Outcome.ok _ => true
  | _ => false

/-- Whether an outcome is an error (a Rust `Err`, not a panic). -/
def Outcome.isError {α : Type} : Outcome α → Bool
  | Outcome.error _ => true
  | _ => false

/-- Convert an optional value into an `Outcome` with the given error
message (the `ok_or_else` pattern in the source). -/
def req {α : Type} (o : Option α) (msg : String) : Outcome α :=
  match o with
  | some a => Outcome.ok a
  | none => Outcome.error msg

/-- Association-list lookup; models both `HashMap::get` and
`BTreeMap::get` (the source only ever looks maps up by key). -/
def lookupD {α β : Type} [DecidableEq α] : List (α × β) → α → Option β
  | [], _ => none
  | (k, v) :: rest, key => if key = k then some v else lookupD rest key

/-- Collect a list of fallible results, stopping at the first failure:
the model of `iter().map(..).collect::<Result<_>>()`. -/
def Outcome.mapList {α β : Type} (f : α → Outcome β) : List α → Outcome (List β)
  | [] => Outcome.ok []
  | x :: rest =>
      Outcome.bind (f x) (fun y =>
      Outcome.bind (Outcome.mapList f rest) (fun ys =>
      Outcome.ok (y :: ys)))

/-- The 2x3 affine current transformation matrix (source `struct CTM`),
with `f32` idealized as `ℚ`. -/
structure CTM where
  a : ℚ
  b : ℚ
  c : ℚ
  d : ℚ
  e : ℚ
  f : ℚ
  deriving DecidableEq

/-- `impl Default for CTM`: the identity matrix. -/
def CTM.default : CTM := ⟨1, 0, 0, 1, 0, 0⟩

/-- Source `fn concat(m1, m2)`: matrix composition. -/
def concat (m1 : CTM) (m2 : CTM) : CTM :=
  { a := m1.a * m2.a + m1.c * m2.b
    b := m1.b * m2.a + m1.d * m2.b
    c := m1.a * m2.c + m1.c * m2.d
    d := m1.b * m2.c + m1.d * m2.d
    e := m1.a * m2.e + m1.b * m2.f + m1.e
    f := m1.b * m2.e + m1.d * m2.f + m1.f }

/-- Source `struct Coord`: a 2D point. -/
structure Coord where
  x : ℚ
  y : ℚ
  deriving DecidableEq

/-- Source `struct DeviceScale`. -/
structure DeviceScale where
  height : Nat
  scale : ℚ
  deriving DecidableEq

/-- Source `fn transform`: user-space point to device space, with the
vertical flip. -/
def transform (xy : Coord) (ctm : CTM) (scale : DeviceScale) : Coord :=
  { x := scale.scale * (ctm.a * xy.x + ctm.c * xy.y + ctm.e)
    y := (scale.height : ℚ) - scale.scale * (ctm.b * xy.x + ctm.d * xy.y + ctm.f) }

/-- femtovg `Color` (rgba floats). -/
structure Color where
  r : ℚ
  g : ℚ
  b : ℚ
  a : ℚ
  deriving DecidableEq

/-- femtovg `Color::black()`. -/
def Color.black : Color := ⟨0, 0, 0, 1⟩

/-- femtovg `Color::rgbf`: alpha is 1. -/
def Color.rgbf (r g b : ℚ) : Color := ⟨r, g, b, 1⟩

/-- femtovg `FillRule`. -/
inductive FillRule where
  | nonZero : FillRule
  | evenOdd : FillRule
  deriving DecidableEq

/-- One femtovg `Path` builder command; a path is the ordered list of
commands appended to it. -/
inductive PathCmd where
  | moveTo (x y : ℚ) : PathCmd
  | lineTo (x y : ℚ) : PathCmd
  | bezierTo (x1 y1 x2 y2 x3 y3 : ℚ) : PathCmd
  | rect (x y w h : ℚ) : PathCmd
  | close : PathCmd
  deriving DecidableEq

/-- One drawing command received by the canvas, in order.
`fillImage` abstracts the glyph-image fill of `draw_text` (a
`Paint::image` fill of the rectangle `[x0, y0, w, h]`); `createImage`
abstracts `canvas.create_image` for a `w`-by-`h` glyph raster. -/
inductive Emission where
  | strokePath (path : List PathCmd) (color : Color) (lineWidth : Option ℚ) : Emission
  | fillPath (path : List PathCmd) (color : Color) (rule : FillRule) : Emission
  | createImage (w h : ℤ) : Emission
  | fillImage (x0 y0 w h : ℚ) : Emission
  deriving DecidableEq

/-- rusttype pixel bounding box data for a positioned scaled glyph:
`min.x`, `min.y`, `width()`, `height()`. -/
structure Metrics where
  minX : ℤ
  minY : ℤ
  width : ℤ
  height : ℤ
  deriving DecidableEq

/-- Abstraction of a parsed rusttype face: a finite table answering
`glyph(gid).scaled(Scale::uniform(s)).positioned(origin).pixel_bounding_box()`
queries, keyed by glyph id and uniform scale.  A key absent from the
table models a glyph with no bounding box (e.g. a space). -/
structure RTFont where
  bboxTable : List ((Nat × ℚ) × Metrics)
  deriving DecidableEq

/-- Source `struct Font`. -/
structure Font where
  name : String
  font : RTFont
  widths : List ℚ
  deriving DecidableEq

/-- Source `struct TextState`. -/
structure TextState where
  position : ℚ
  size : ℚ
  matrix : CTM
  font : Option Font
  deriving DecidableEq

/-- `#[derive(Default)]` for `TextState` (the `Default` of `CTM` is the
identity matrix). -/
def TextState.default : TextState :=
  { position := 0, size := 0, matrix := CTM.default, font := none }

/-- Source `struct GraphicsState`. -/
structure GraphicsState where
  ctm : CTM
  stroke_color : Color
  non_stroke_color : Color
  path : List PathCmd
  text_state : Option TextState
  line_width : ℚ
  deriving DecidableEq

/-- `impl Default for GraphicsState`. -/
def GraphicsState.default : GraphicsState :=
  { ctm := CTM.default
    stroke_color := Color.black
    non_stroke_color := Color.black
    path := []
    text_state := none
    line_width := 1 }

/-- Source `struct State`: the graphics-state stack, top at the head. -/
structure State where
  graphics_state : List GraphicsState
  deriving DecidableEq

/-- `impl Default for State`: a one-element stack. -/
def State.default : State := { graphics_state := [GraphicsState.default] }

/-- lopdf `Object`, restricted to the variants the source consumes.
`string` is a PDF byte string; `stream` carries its decompressed
content; `ref` is an object id (lopdf object ids are modelled as `Nat`). -/
inductive Object where
  | null : Object
  | boolean : Bool → Object
  | integer : ℤ → Object
  | real : ℚ → Object
  | name : String → Object
  | string : List Nat → Object
  | array : List Object → Object
  | dict : List (String × Object) → Object
  | stream : List Nat → Object
  | ref : Nat → Object

/-- A lopdf `Dictionary` is a key/object map. -/
abbrev Dictionary := List (String × Object)

/-- lopdf `Object::as_float`: accepts `Real` and `Integer`, nothing
else.  (The source's own `FromPDF for f32` has the same semantics.) -/
def Object.asFloat : Object → Option ℚ
  | Object.real r => some r
  | Object.integer i => some (i : ℚ)
  | _ => none

/-- `as_float()?`: the fallible form used with the `?` operator. -/
def Object.asFloatE (o : Object) : Outcome ℚ :=
  match o.asFloat with
  | some v => Outcome.ok v
  | none => Outcome.error "not a number"

/-- lopdf `Object::as_array`. -/
def Object.asArray : Object → Outcome (List Object)
  | Object.array l => Outcome.ok l
  | _ => Outcome.error "expected Array"

/-- lopdf `Object::as_dict`. -/
def Object.asDict : Object → Outcome Dictionary
  | Object.dict d => Outcome.ok d
  | _ => Outcome.error "expected Dictionary"

/-- lopdf `Object::as_name` followed by the UTF-8 decoding the source
performs (names are modelled directly as strings). -/
def Object.asName : Object → Outcome String
  | Object.name n => Outcome.ok n
  | _ => Outcome.error "expected Name"

/-- lopdf `Object::as_reference`. -/
def Object.asReferenceE : Object → Outcome Nat
  | Object.ref i => Outcome.ok i
  | _ => Outcome.error "expected Reference"

/-- lopdf `Object::as_stream` composed with `decompressed_content`
(streams are stored decompressed in the model). -/
def Object.asStream : Object → Outcome (List Nat)
  | Object.stream bs => Outcome.ok bs
  | _ => Outcome.error "expected Stream"

/-- lopdf `Dictionary::get`: missing keys are an error. -/
def dictGet (d : Dictionary) (k : String) : Outcome Object :=
  req (lookupD d k) "missing dictionary key"

/-- A content-stream operation (lopdf `content::Operation`). -/
structure Operation where
  operator : String
  operands : List Object

/-- The lopdf `Document` oracle as finite tables (see the header
comment); `fontPrograms` additionally stands in for
`rusttype::Font::try_from_vec`. -/
structure Document where
  pages : List (Nat × Nat)
  objects : List (Nat × Object)
  pageFontsTab : List (Nat × List (String × Dictionary))
  pageContentTab : List (Nat × List Operation)
  fontPrograms : List (List Nat × RTFont)

/-- lopdf `Document::get_object`. -/
def Document.getObject (doc : Document) (i : Nat) : Outcome Object :=
  req (lookupD doc.objects i) "object not found"

/-- lopdf `Document::get_dictionary`. -/
def Document.getDictionary (doc : Document) (i : Nat) : Outcome Dictionary :=
  Outcome.bind (doc.getObject i) Object.asDict

/-- `FromPDF for Vec<u8>`: dereference, take the stream, decompress. -/
def vecU8FromPdf (doc : Document) (root : Object) : Outcome (List Nat) :=
  Outcome.bind root.asReferenceE (fun r =>
  Outcome.bind (doc.getObject r) (fun o =>
  o.asStream))

/-- `FromPDF for Vec<ObjectId>`: an array whose elements are references. -/
def vecObjectIdFromPdf (root : Object) : Outcome (List Nat) :=
  match root with
  | Object.array objs => Outcome.mapList Object.asReferenceE objs
  | _ => Outcome.error "expected Array"

/-- Source `impl FromPDF for Font` (`Font::from_pdf`), in the source's
evaluation order.  The rusttype parse (`try_from_vec`) is answered by
`doc.fontPrograms`. -/
def fontFromPdf (doc : Document) (root : Object) : Outcome Font :=
  Outcome.bind root.asDict (fun font =>
  Outcome.bind (dictGet font "DescendantFonts") (fun dfObj =>
  Outcome.bind (vecObjectIdFromPdf dfObj) (fun descendantFonts =>
  Outcome.bind
    (match descendantFonts with
     | [id] => Outcome.ok id
     | _ => Outcome.error "expected one DescendantFont") (fun did =>
  Outcome.bind (doc.getDictionary did) (fun descendentFont =>
  Outcome.bind (dictGet descendentFont "FontDescriptor") (fun fdObj =>
  Outcome.bind fdObj.asReferenceE (fun fdRef =>
  Outcome.bind (doc.getDictionary fdRef) (fun descriptor =>
  Outcome.bind (dictGet descendentFont "W") (fun wObj =>
  Outcome.bind wObj.asArray (fun wArr =>
  Outcome.bind
    (match wArr with
     | [Object.integer z, Object.array ws] =>
         if z = 0 then Outcome.mapList Object.asFloatE ws
         else Outcome.error "Expected [0 [widths..]]"
     | _ => Outcome.error "Expected [0 [widths..]]") (fun widths =>
  Outcome.bind (dictGet descriptor "FontFile2") (fun ff2 =>
  Outcome.bind (vecU8FromPdf doc ff2) (fun content =>
  Outcome.bind (req (lookupD doc.fontPrograms content) "could not load font") (fun rt =>
  Outcome.bind (dictGet descriptor "FontName") (fun nameObj =>
  Outcome.bind nameObj.asName (fun name =>
  Outcome.ok { name := name, font := rt, widths := widths }))))))))))))))))

/-- The closure mapped over `get_page_fonts` entries in `draw_doc`:
load the font and pair it with its resource name. -/
def loadFontEntry (doc : Document) (p : String × Dictionary) : Outcome (String × Font) :=
  Outcome.bind (fontFromPdf doc (Object.dict p.2)) (fun f => Outcome.ok (p.1, f))

/-- `u32::try_from(i64)`: fails on negatives and on values above
`u32::MAX`. -/
def tryIntoU32 (i : ℤ) : Option Nat :=
  if 0 ≤ i ∧ i ≤ 4294967295 then some i.toNat else none

/-- Source `fn dimensions`: `MediaBox` must be exactly four `Integer`s
with a zero origin, and width/height must convert to `u32`. -/
def dimensions (page : Dictionary) : Outcome (Nat × Nat) :=
  Outcome.bind (dictGet page "MediaBox") (fun mb =>
  Outcome.bind mb.asArray (fun arr =>
  match arr with
  | [Object.integer x, Object.integer y, Object.integer w, Object.integer h] =>
      if x = 0 ∧ y = 0 then
        match tryIntoU32 w, tryIntoU32 h with
        | some w2, some h2 => Outcome.ok (w2, h2)
        | _, _ => Outcome.error "Expected w, h > 0"
      else Outcome.error "Expected [0 0 w h]"
  | _ => Outcome.error "Expected [0 0 w h]"))

/-- Source `const TEXT_SCALE: f32 = 1000.`. -/
def TEXT_SCALE : ℚ := 1000

/-- `bytes.chunks_exact(2).map(u16::from_be_bytes)`: the list of
big-endian 16-bit glyph ids; a trailing odd byte is dropped. -/
def glyphIds : List Nat → List Nat
  | [] => []
  | [_] => []
  | b0 :: b1 :: rest => (256 * b0 + b1) :: glyphIds rest

/-- The per-glyph loop body of `draw_text` for one byte string, folded
over the glyph ids: reads the pen position, advances it by the glyph's
width (missing width indices default to 0), and emits the glyph image
if the scaled glyph has a pixel bounding box. -/
def showGlyphs (scale : DeviceScale) (f : Font) :
    TextState → List Nat → TextState × List Emission
  | ts, [] => (ts, [])
  | ts, gid :: rest =>
      let c := transform ⟨ts.position / TEXT_SCALE * ts.size, 0⟩ ts.matrix scale
      let width := f.widths.getD gid 0
      let ems : List Emission :=
        match lookupD f.font.bboxTable (gid, ts.size * scale.scale) with
        | some m =>
            [Emission.createImage m.width m.height,
             Emission.fillImage (c.x + (m.minX : ℚ)) (c.y + (m.minY : ℚ))
               (m.width : ℚ) (m.height : ℚ)]
        | none => []
      let r := showGlyphs scale f { ts with position := ts.position + width } rest
      (r.1, ems ++ r.2)

/-- The `for glyph in glyphs` loop of `draw_text`: byte strings show
glyphs, `Real` numbers move the pen backwards, every other operand is
ignored. -/
def drawTextLoop (scale : DeviceScale) (f : Font) :
    TextState → List Object → TextState × List Emission
  | ts, [] => (ts, [])
  | ts, Object.string bytes :: rest =>
      let r := showGlyphs scale f ts (glyphIds bytes)
      let r2 := drawTextLoop scale f r.1 rest
      (r2.1, r.2 ++ r2.2)
  | ts, Object.real s :: rest =>
      drawTextLoop scale f { ts with position := ts.position - s } rest
  | ts, _ :: rest => drawTextLoop scale f ts rest

/-- Source `fn draw_text`: requires an active text state and a selected
font, then runs the glyph loop. -/
def drawText (scale : DeviceScale) (gs : GraphicsState) (glyphs : List Object) :
    Outcome (GraphicsState × List Emission) :=
  match gs.text_state with
  | none => Outcome.error "no font state"
  | some ts =>
      match ts.font with
      | none => Outcome.error "no font sent"
      | some f =>
          let r := drawTextLoop scale f ts glyphs
          Outcome.ok ({ gs with text_state := some r.1 }, r.2)

/-- Source `fn alter_gfx_state`: run a closure on the top of the
graphics-state stack; an empty stack is an error. -/
def alterGfx (st : State) (f : GraphicsState → Outcome (GraphicsState × List Emission)) :
    Outcome (State × List Emission) :=
  match st.graphics_state with
  | [] => Outcome.error "empty graphics stack"
  | g :: rest =>
      Outcome.bind (f g) (fun r => Outcome.ok (⟨r.1 :: rest⟩, r.2))

/-- Source `fn to_color`. -/
def toColor (r g b : Object) : Outcome Color :=
  Outcome.bind r.asFloatE (fun rv =>
  Outcome.bind g.asFloatE (fun gv =>
  Outcome.bind b.asFloatE (fun bv =>
  Outcome.ok (Color.rgbf rv gv bv))))

/-- One iteration of the operator dispatch loop in `draw_doc`.  The
final catch-all models the `eprintln` arm: unknown operators (and known
operators with unexpected arity) change nothing.  The `"f" | "f*"` arm
of the source is split into its two instances, with the `o == "f"` fill
rule test evaluated in each. -/
def applyOp (scale : DeviceScale) (fontMap : List (String × Font)) (st : State)
    (op : Operation) : Outcome (State × List Emission) :=
  match op.operator, op.operands with
  | "BT", [] =>
      alterGfx st (fun gs =>
        Outcome.ok ({ gs with text_state := some TextState.default }, []))
  | "Tm", [a, b, c, d, e, f] =>
      alterGfx st (fun gs =>
        let base := { gs with text_state := some TextState.default }
        Outcome.bind a.asFloatE (fun av =>
        Outcome.bind b.asFloatE (fun bv =>
        Outcome.bind c.asFloatE (fun cv =>
        Outcome.bind d.asFloatE (fun dv =>
        Outcome.bind e.asFloatE (fun ev =>
        Outcome.bind f.asFloatE (fun fv =>
        match base.text_state with
        | some ts =>
            Outcome.ok ({ base with
              text_state := some { ts with matrix := concat base.ctm ⟨av, bv, cv, dv, ev, fv⟩ } }, [])
        | none => Outcome.ok (base, []))))))))
  | "Tf", [Object.name n, size] =>
      alterGfx st (fun gs =>
        match lookupD fontMap n with
        | some font =>
            match gs.text_state with
            | some ts =>
                match size.asFloat with
                | some v =>
                    Outcome.ok ({ gs with
                      text_state := some { ts with font := some font, size := v } }, [])
                | none => Outcome.panicked "called unwrap on Err"
            | none => Outcome.ok (gs, [])
        | none => Outcome.ok (gs, []))
  | "TJ", [text] =>
      alterGfx st (fun gs =>
        Outcome.bind text.asArray (fun arr => drawText scale gs arr))
  | "ET", [] =>
      alterGfx st (fun gs => Outcome.ok ({ gs with text_state := none }, []))
  | "cm", [a, b, c, d, e, f] =>
      Outcome.bind a.asFloatE (fun av =>
      Outcome.bind b.asFloatE (fun bv =>
      Outcome.bind c.asFloatE (fun cv =>
      Outcome.bind d.asFloatE (fun dv =>
      Outcome.bind e.asFloatE (fun ev =>
      Outcome.bind f.asFloatE (fun fv =>
      alterGfx st (fun gs =>
        Outcome.ok ({ gs with ctm := concat gs.ctm ⟨av, bv, cv, dv, ev, fv⟩ }, []))))))))
  | "q", [] =>
      Outcome.ok (⟨(st.graphics_state.head?.getD GraphicsState.default) :: st.graphics_state⟩, [])
  | "Q", [] =>
      match st.graphics_state with
      | [] => Outcome.error "Popped empty graphics stack"
      | _ :: rest => Outcome.ok (⟨rest⟩, [])
  | "scn", [r, g, b] =>
      alterGfx st (fun gs =>
        Outcome.bind (toColor r g b) (fun col =>
        Outcome.ok ({ gs with non_stroke_color := col }, [])))
  | "SCN", [r, g, b] =>
      alterGfx st (fun gs =>
        Outcome.bind (toColor r g b) (fun col =>
        Outcome.ok ({ gs with stroke_color := col }, [])))
  | "m", [x, y] =>
      alterGfx st (fun gs =>
        Outcome.bind x.asFloatE (fun xv =>
        Outcome.bind y.asFloatE (fun yv =>
        let xy := transform ⟨xv, yv⟩ gs.ctm scale
        Outcome.ok ({ gs with path := gs.path ++ [PathCmd.moveTo xy.x xy.y] }, []))))
  | "l", [x, y] =>
      alterGfx st (fun gs =>
        Outcome.bind x.asFloatE (fun xv =>
        Outcome.bind y.asFloatE (fun yv =>
        let xy := transform ⟨xv, yv⟩ gs.ctm scale
        Outcome.ok ({ gs with path := gs.path ++ [PathCmd.lineTo xy.x xy.y] }, []))))
  | "c", [x1, y1, x2, y2, x3, y3] =>
      alterGfx st (fun gs =>
        Outcome.bind x1.asFloatE (fun xv1 =>
        Outcome.bind y1.asFloatE (fun yv1 =>
        Outcome.bind x2.asFloatE (fun xv2 =>
        Outcome.bind y2.asFloatE (fun yv2 =>
        Outcome.bind x3.asFloatE (fun xv3 =>
        Outcome.bind y3.asFloatE (fun yv3 =>
        let xy1 := transform ⟨xv1, yv1⟩ gs.ctm scale
        let xy2 := transform ⟨xv2, yv2⟩ gs.ctm scale
        let xy3 := transform ⟨xv3, yv3⟩ gs.ctm scale
        Outcome.ok ({ gs with
          path := gs.path ++ [PathCmd.bezierTo xy1.x xy1.y xy2.x xy2.y xy3.x xy3.y] }, []))))))))
  | "re", [xo, yo, wo, ho] =>
      alterGfx st (fun gs =>
        Outcome.bind xo.asFloatE (fun x =>
        Outcome.bind yo.asFloatE (fun y =>
        Outcome.bind wo.asFloatE (fun w =>
        Outcome.bind ho.asFloatE (fun h =>
        let xy0 := transform ⟨x, y⟩ gs.ctm scale
        let xy1 := transform ⟨x + w, y + h⟩ gs.ctm scale
        Outcome.ok ({ gs with
          path := gs.path ++ [PathCmd.rect xy0.x xy0.y (xy1.x - xy0.x) (xy1.y - xy0.y)] }, []))))))
  | "h", [] =>
      alterGfx st (fun gs =>
        Outcome.ok ({ gs with path := gs.path ++ [PathCmd.close] }, []))
  | "f", [] =>
      alterGfx st (fun gs =>
        Outcome.ok ({ gs with path := [] },
          [Emission.fillPath gs.path gs.non_stroke_color FillRule.nonZero]))
  | "f*", [] =>
      alterGfx st (fun gs =>
        Outcome.ok ({ gs with path := [] },
          [Emission.fillPath gs.path gs.non_stroke_color FillRule.evenOdd]))
  | "w", [lw] =>
      alterGfx st (fun gs =>
        Outcome.bind lw.asFloatE (fun v =>
        Outcome.ok ({ gs with line_width := v }, [])))
  | "S", [] =>
      alterGfx st (fun gs =>
        Outcome.ok ({ gs with path := [] },
          [Emission.strokePath gs.path gs.stroke_color
            (some (gs.line_width * scale.scale))]))
  | _, _ => Outcome.ok (st, [])

/-- The `for op in content.operations` loop of `draw_doc`. -/
def runOps (scale : DeviceScale) (fontMap : List (String × Font)) :
    State → List Operation → Outcome (State × List Emission)
  | st, [] => Outcome.ok (st, [])
  | st, op :: rest =>
      Outcome.bind (applyOp scale fontMap st op) (fun r =>
      Outcome.bind (runOps scale fontMap r.1 rest) (fun r2 =>
      Outcome.ok (r2.1, r.2 ++ r2.2)))

/-- The fixed stroke `draw_doc` emits before entering the interpreter
loop: a line from (100, 100) to (200, 200), black, default paint. -/
def debugStroke : Emission :=
  Emission.strokePath [PathCmd.moveTo 100 100, PathCmd.lineTo 200 200] Color.black none

/-- Source `fn draw_doc`: page lookup, dimensions, device scale, font
map (a failing font load aborts via `?`), content, the fixed pre-loop
stroke, then the interpreter loop.  The result is the ordered list of
canvas emissions. -/
def drawDoc (doc : Document) (canvas : Nat × Nat) (page : Nat) : Outcome (List Emission) :=
  Outcome.bind (req (lookupD doc.pages page) "No such page") (fun pageId =>
  Outcome.bind (doc.getDictionary pageId) (fun pageDict =>
  Outcome.bind (dimensions pageDict) (fun size =>
  let scale : DeviceScale := { height := canvas.2, scale := (canvas.1 : ℚ) / (size.1 : ℚ) }
  Outcome.bind (req (lookupD doc.pageFontsTab pageId) "could not get page fonts") (fun fonts =>
  Outcome.bind (Outcome.mapList (loadFontEntry doc) fonts) (fun fontMap =>
  Outcome.bind (req (lookupD doc.pageContentTab pageId) "could not get page content") (fun ops =>
  Outcome.bind (runOps scale fontMap State.default ops) (fun r =>
  Outcome.ok (debugStroke :: r.2))))))))

/-- A device scale used by the concrete examples: 100-pixel-high output
at unit scale. -/
def scaleEx : DeviceScale := { height := 100, scale := 1 }

/-- A parsed-face oracle with no glyph bounding boxes. -/
def rtEx : RTFont := { bboxTable := [] }

/-- A concrete font with widths 500 and 300 (1/1000 em). -/
def fontEx : Font := { name := "TestFont", font := rtEx, widths := [500, 300] }

/-- A concrete text state selecting `fontEx` at size 10. -/
def tsEx : TextState :=
  { position := 0, size := 10, matrix := CTM.default, font := some fontEx }

/-- A concrete graphics state with the text state `tsEx` active. -/
def gsEx : GraphicsState := { GraphicsState.default with text_state := some tsEx }

/-- A concrete graphics state holding a non-empty in-construction path. -/
def gsPathEx : GraphicsState := { GraphicsState.default with path := [PathCmd.moveTo 0 0] }

/-- A page dictionary with `MediaBox [0 0 100 100]`. -/
def pageDictEx : Dictionary :=
  [("MediaBox", Object.array
    [Object.integer 0, Object.integer 0, Object.integer 100, Object.integer 100])]

/-- A font dictionary whose descendant font (object 10) is well-formed. -/
def goodFontDict : Dictionary := [("DescendantFonts", Object.array [Object.ref 10])]

/-- A font dictionary whose descendant font (object 20) has a malformed
`W` array, so loading it fails. -/
def badFontDict : Dictionary := [("DescendantFonts", Object.array [Object.ref 20])]

/-- The object table shared by the concrete documents: page 1's
dictionary, a good descendant font (10), a bad one (20, malformed `W`),
a font descriptor (11), and the embedded font program stream (12). -/
def baseObjects : List (Nat × Object) :=
  [(1, Object.dict pageDictEx),
   (10, Object.dict
     [("FontDescriptor", Object.ref 11),
      ("W", Object.array [Object.integer 0,
        Object.array [Object.integer 500, Object.integer 300]])]),
   (20, Object.dict
     [("FontDescriptor", Object.ref 11),
      ("W", Object.array [Object.integer 1, Object.array []])]),
   (11, Object.dict [("FontFile2", Object.ref 12), ("FontName", Object.name "TestFont")]),
   (12, Object.stream [1, 2, 3])]

/-- A document whose page 1 maps two font names: one loadable font and
one whose load fails. -/
def docTwoFonts : Document :=
  { pages := [(1, 1)]
    objects := baseObjects
    pageFontsTab := [(1, [("F0", goodFontDict), ("F1", badFontDict)])]
    pageContentTab := [(1, [])]
    fontPrograms := [([1, 2, 3], rtEx)] }

/-- The same document with only the loadable font. -/
def docGoodFont : Document :=
  { docTwoFonts with pageFontsTab := [(1, [("F0", goodFontDict)])] }

/-- A fontless document whose page content is the single operator `Q`. -/
def docQ : Document :=
  { docTwoFonts with
    pageFontsTab := [(1, [])]
    pageContentTab := [(1, [Operation.mk "Q" []])] }

/-- A fontless document whose page content is `Q Q`. -/
def docQQ : Document :=
  { docTwoFonts with
    pageFontsTab := [(1, [])]
    pageContentTab := [(1, [Operation.mk "Q" [], Operation.mk "Q" []])] }

/-- A fontless document whose page content stream is empty. -/
def docEmptyContent : Document :=
  { docTwoFonts with
    pageFontsTab := [(1, [])]
    pageContentTab := [(1, [])] }

/-- The canvas dimensions used by the concrete examples: 200 by 200
(MediaBox 100 by 100 at scale 2). -/
def canvasEx : Nat × Nat := (200, 200)

/-- A dictionary holding just a `MediaBox` entry. -/
def mediaBoxDict (elems : List Object) : Dictionary := [("MediaBox", Object.array elems)]

theorem outcome_bind_not_isOk {α β : Type} (x : Outcome α) (k : α → Outcome β)
    (h : x.isOk = false) : (Outcome.bind x k).isOk = false := by
  cases x with
  | ok a => simp [Outcome.isOk] at h
  | error e => rfl
  | panicked m => rfl

theorem outcome_mapList_not_isOk {α β : Type} (f : α → Outcome β) (l : List α)
    (h : ∃ x ∈ l, (f x).isOk = false) : (Outcome.mapList f l).isOk = false := by
  induction l with
  | nil => rcases h with ⟨x, hx, _⟩; cases hx
  | cons a rest ih =>
      rcases h with ⟨x, hx, hfx⟩
      cases hfa : f a with
      | ok y =>
          have hxr : x ∈ rest := by
            rcases List.mem_cons.mp hx with h1 | h2
            · subst h1; rw [hfa] at hfx; simp [Outcome.isOk] at hfx
            · exact h2
          have hrest := ih ⟨x, hxr, hfx⟩
          simp only [Outcome.mapList, hfa, Outcome.bind]
          exact outcome_bind_not_isOk _ _ hrest
      | error e => simp [Outcome.mapList, hfa, Outcome.bind, Outcome.isOk]
      | panicked m => simp [Outcome.mapList, hfa, Outcome.bind, Outcome.isOk]

theorem loadFontEntry_isOk (doc : Document) (p : String × Dictionary)
    (h : (fontFromPdf doc (Object.dict p.2)).isOk = false) :
    (loadFontEntry doc p).isOk = false :=
  outcome_bind_not_isOk _ _ h

theorem showGlyphs_position (scale : DeviceScale) (f : Font) (ts : TextState)
    (gids : List Nat) :
    (showGlyphs scale f ts gids).1.position
      = ts.position + (gids.map (fun g => f.widths.getD g 0)).sum := by
  induction gids generalizing ts with
  | nil => simp [showGlyphs]
  | cons g rest ih =>
      simp only [showGlyphs, ih, List.map_cons, List.sum_cons]
      ring

theorem glyphIds_len : ∀ bytes : List Nat, (glyphIds bytes).length = bytes.length / 2
  | [] => by simp [glyphIds]
  | [_] => by simp [glyphIds]
  | b0 :: b1 :: rest => by
      have ih := glyphIds_len rest
      simp only [glyphIds, List.length_cons]
      omega

/-- Claim C4: matrix composition as implemented is NOT associative.
The `e` component of `concat` computes `m1.a*m2.e + m1.b*m2.f + m1.e`,
using `m1.b` where composition of the affine maps applied by `transform`
(`x' = a*x + c*y + e`, `y' = b*x + d*y + f`) requires `m1.c`.  At
A = (0,0,1,0,0,0), B = (0,1,0,0,0,0), C = (0,0,0,0,1,0) the two
associations differ in the `e` component. -/
theorem concat_not_assoc_example :
    concat (concat ⟨0, 0, 1, 0, 0, 0⟩ ⟨0, 1, 0, 0, 0, 0⟩) ⟨0, 0, 0, 0, 1, 0⟩
      = ⟨0, 0, 0, 0, 1, 0⟩
    ∧ concat ⟨0, 0, 1, 0, 0, 0⟩ (concat ⟨0, 1, 0, 0, 0, 0⟩ ⟨0, 0, 0, 0, 1, 0⟩)
      = ⟨0, 0, 0, 0, 0, 0⟩
    ∧ concat (concat ⟨0, 0, 1, 0, 0, 0⟩ ⟨0, 1, 0, 0, 0, 0⟩) ⟨0, 0, 0, 0, 1, 0⟩
      ≠ concat ⟨0, 0, 1, 0, 0, 0⟩ (concat ⟨0, 1, 0, 0, 0, 0⟩ ⟨0, 0, 0, 0, 1, 0⟩) :=
  ⟨by simp only [concat, CTM.mk.injEq]; norm_num,
   by simp only [concat, CTM.mk.injEq]; norm_num,
   by simp only [concat, ne_eq, CTM.mk.injEq]; norm_num⟩

/-- Claim C10: the `q` operator never fails; it pushes a clone of the
current top of the graphics-state stack (or a default graphics state if
the stack was emptied by earlier `Q`s), growing the stack by exactly
one entry. -/
theorem q_never_fails (scale : DeviceScale) (fm : List (String × Font)) (st : State) :
    applyOp scale fm st (Operation.mk "q" [])
      = Outcome.ok
          (State.mk ((st.graphics_state.head?.getD GraphicsState.default) :: st.graphics_state), [])
    ∧ ((st.graphics_state.head?.getD GraphicsState.default) :: st.graphics_state).length
        = st.graphics_state.length + 1 :=
  ⟨rfl, by simp⟩

/-- Claim C5 counterexample: the painting operator `B` is not handled
by the interpreter (it falls into the ignored-operator arm), so a
non-empty current path survives `B` unchanged — the claim that the path
is empty after `B` is false. -/
theorem paint_B_ignored_example :
    applyOp scaleEx [] (State.mk [gsPathEx]) (Operation.mk "B" [])
      = Outcome.ok (State.mk [gsPathEx], [])
    ∧ gsPathEx.path ≠ [] :=
  ⟨rfl, by decide⟩

/-- Claim C5 (amended): after any of the handled painting operators
`f`, `f*`, `S`, the current graphics state's path is the empty path,
for every graphics state and every path built beforehand; `B` is not a
recognized operator and leaves the state unchanged. -/
theorem paint_resets_path (scale : DeviceScale) (fm : List (String × Font))
    (gs : GraphicsState) (rest : List GraphicsState) :
    applyOp scale fm (State.mk (gs :: rest)) (Operation.mk "f" [])
      = Outcome.ok (State.mk ({ gs with path := [] } :: rest),
          [Emission.fillPath gs.path gs.non_stroke_color FillRule.nonZero])
    ∧ applyOp scale fm (State.mk (gs :: rest)) (Operation.mk "f*" [])
      = Outcome.ok (State.mk ({ gs with path := [] } :: rest),
          [Emission.fillPath gs.path gs.non_stroke_color FillRule.evenOdd])
    ∧ applyOp scale fm (State.mk (gs :: rest)) (Operation.mk "S" [])
      = Outcome.ok (State.mk ({ gs with path := [] } :: rest),
          [Emission.strokePath gs.path gs.stroke_color (some (gs.line_width * scale.scale))]) :=
  ⟨rfl, rfl, rfl⟩

/-- Claim C1 counterexample: on a page mapping two font names where one
font fails to load (malformed `W`), `draw_doc` does not drop the entry
and continue — the per-font error propagates through the
`collect::<Result<..>>()?` and the whole render fails; with the failing
font removed the very same page renders fine. -/
theorem drawDoc_font_failure_example :
    drawDoc docTwoFonts canvasEx 1 = Outcome.error "Expected [0 [widths..]]"
    ∧ (drawDoc docGoodFont canvasEx 1).isOk = true :=
  ⟨rfl, rfl⟩

/-- Claim C1 (amended): a per-font load failure is fatal for
`draw_doc`: when the page resolves and some entry of its font list
fails to load, the page render fails (the font-map `collect` propagates
the first error); no entry is skipped. -/
theorem drawDoc_font_failure_fatal (doc : Document) (canvas : Nat × Nat) (page : Nat)
    (pid : Nat) (pd : Dictionary) (sz : Nat × Nat) (fs : List (String × Dictionary))
    (hpage : lookupD doc.pages page = some pid)
    (hpd : Document.getDictionary doc pid = Outcome.ok pd)
    (hdim : dimensions pd = Outcome.ok sz)
    (hfonts : lookupD doc.pageFontsTab pid = some fs)
    (hbad : ∃ p ∈ fs, (fontFromPdf doc (Object.dict p.2)).isOk = false) :
    (drawDoc doc canvas page).isOk = false := by
  have hmap : (Outcome.mapList (loadFontEntry doc) fs).isOk = false := by
    rcases hbad with ⟨p, hp, hfail⟩
    exact outcome_mapList_not_isOk _ _ ⟨p, hp, loadFontEntry_isOk doc p hfail⟩
  simp only [drawDoc, hpage, hpd, hdim, hfonts, req, Outcome.bind]
  exact outcome_bind_not_isOk _ _ hmap

/-- Witness for the amended claim C1 at the concrete two-font document. -/
theorem drawDoc_font_failure_fatal_witness :
    (drawDoc docTwoFonts canvasEx 1).isOk = false :=
  drawDoc_font_failure_fatal docTwoFonts canvasEx 1 1 pageDictEx (100, 100)
    [("F0", goodFontDict), ("F1", badFontDict)] rfl rfl rfl rfl
    ⟨("F1", badFontDict), by simp, rfl⟩

/-- Claim C2 counterexample: a content stream consisting of the single
operator `Q` does NOT fail — `State::default` starts the stack with one
default graphics state, so the pop succeeds — and the canvas is not
left untouched: it receives the fixed pre-loop debug stroke. -/
theorem single_Q_succeeds_example :
    (drawDoc docQ canvasEx 1).isError = false
    ∧ drawDoc docQ canvasEx 1 = Outcome.ok [debugStroke] :=
  ⟨rfl, rfl⟩

/-- Claim C2 (amended): content `Q` alone renders successfully (the
initial stack holds one entry, so the pop succeeds), and the canvas
receives exactly the fixed pre-loop debug stroke; the unbalanced-stack
error is produced only by a `Q` executed on an already emptied stack,
e.g. the second `Q` of content `Q Q`, and is then fatal for the page. -/
theorem unbalanced_Q_behavior :
    drawDoc docQ canvasEx 1 = Outcome.ok [debugStroke]
    ∧ drawDoc docQQ canvasEx 1 = Outcome.error "Popped empty graphics stack" :=
  ⟨rfl, rfl⟩

/-- Claim C3: a page with an empty content stream does NOT produce zero
canvas emissions: `draw_doc` unconditionally strokes a fixed debug path
from (100,100) to (200,200) before entering the operator loop, so this
emission is produced by no operator of the content stream. -/
theorem empty_content_emits_debug_stroke :
    drawDoc docEmptyContent canvasEx 1
      = Outcome.ok
          [Emission.strokePath [PathCmd.moveTo 100 100, PathCmd.lineTo 200 200] Color.black none] :=
  rfl

/-- Claim C6 counterexample: a PDF `Integer` element of a TJ array is
NOT subtracted from the pen position — the loop of `draw_text` matches
only `Object::Real` for numbers and silently ignores `Integer`
operands, so the position stays unchanged where the claim requires it
to decrease by 5. -/
theorem tj_integer_ignored_example :
    drawText scaleEx gsEx [Object.integer 5] = Outcome.ok (gsEx, [])
    ∧ tsEx.position ≠ tsEx.position - 5 :=
  ⟨rfl, by norm_num [tsEx]⟩

/-- Claim C6 (amended): for a `Real` element of a TJ array its value is
subtracted from `text_state.position` and nothing else changes; an
`Integer` element is ignored entirely (no state change, no emission). -/
theorem tj_numeric_elements (scale : DeviceScale) (gs : GraphicsState) (ts : TextState)
    (f : Font) (hts : gs.text_state = some ts) (hf : ts.font = some f) :
    (∀ s : ℚ, drawText scale gs [Object.real s]
        = Outcome.ok ({ gs with text_state := some { ts with position := ts.position - s } }, []))
    ∧ ∀ i : ℤ, drawText scale gs [Object.integer i] = Outcome.ok (gs, []) := by
  constructor
  · intro s
    simp only [drawText, hts, hf, drawTextLoop]
  · intro i
    simp only [drawText, hts, hf, drawTextLoop]
    cases gs with
    | mk ctm sc nsc path tstate lw =>
        simp only at hts
        subst hts
        rfl

/-- Witness for the amended claim C6 at a concrete state. -/
theorem tj_numeric_elements_witness :
    drawText scaleEx gsEx [Object.real 5]
      = Outcome.ok ({ gsEx with text_state := some { tsEx with position := tsEx.position - 5 } }, [])
    ∧ drawText scaleEx gsEx [Object.integer 7] = Outcome.ok (gsEx, []) :=
  ⟨(tj_numeric_elements scaleEx gsEx tsEx fontEx rfl rfl).1 5,
   (tj_numeric_elements scaleEx gsEx tsEx fontEx rfl rfl).2 7⟩

/-- Claim C7 counterexample: `dimensions` does NOT accept real elements
and does NOT ignore a non-zero origin — a `MediaBox` of four `Real`s is
rejected, and so is `[1 0 100 100]`, where the claim requires
`(100, 100)` in both cases. -/
theorem dimensions_strict_example :
    dimensions (mediaBoxDict [Object.real 0, Object.real 0, Object.real 100, Object.real 100])
      = Outcome.error "Expected [0 0 w h]"
    ∧ dimensions (mediaBoxDict
        [Object.integer 1, Object.integer 0, Object.integer 100, Object.integer 100])
      = Outcome.error "Expected [0 0 w h]" :=
  ⟨rfl, rfl⟩

/-- Claim C7 (amended): page-size resolution accepts only a `MediaBox`
of exactly four `Integer` objects with origin exactly `(0, 0)` and
width/height representable as `u32`, and then returns `(w, h)`; real
elements or a non-zero origin are errors. -/
theorem dimensions_integer_zero_origin (w h : ℤ)
    (hw0 : 0 ≤ w) (hw1 : w ≤ 4294967295) (hh0 : 0 ≤ h) (hh1 : h ≤ 4294967295) :
    dimensions (mediaBoxDict
      [Object.integer 0, Object.integer 0, Object.integer w, Object.integer h])
      = Outcome.ok (w.toNat, h.toNat) := by
  simp [dimensions, mediaBoxDict, dictGet, lookupD, req, Object.asArray, Outcome.bind,
    tryIntoU32, hw0, hw1, hh0, hh1]

/-- Witness for the amended claim C7 at `MediaBox [0 0 100 100]`. -/
theorem dimensions_integer_zero_origin_witness :
    dimensions (mediaBoxDict
      [Object.integer 0, Object.integer 0, Object.integer 100, Object.integer 100])
      = Outcome.ok ((100 : ℤ).toNat, (100 : ℤ).toNat) :=
  dimensions_integer_zero_origin 100 100 (by norm_num) (by norm_num) (by norm_num) (by norm_num)

/-- Claim C8: showing a TJ byte string advances the pen position by the
sum of the widths of its complete big-endian 2-byte glyph ids (a
trailing odd byte is dropped: there are `length / 2` of them), where a
glyph id outside the width table contributes 0. -/
theorem tj_string_advance (scale : DeviceScale) (gs : GraphicsState) (ts : TextState)
    (f : Font) (bytes : List Nat) (hts : gs.text_state = some ts) (hf : ts.font = some f) :
    ∃ gs' ems, drawText scale gs [Object.string bytes] = Outcome.ok (gs', ems)
      ∧ ∃ ts', gs'.text_state = some ts'
        ∧ ts'.position = ts.position + ((glyphIds bytes).map (fun g => f.widths.getD g 0)).sum
        ∧ (glyphIds bytes).length = bytes.length / 2 := by
  refine ⟨{ gs with text_state := some (showGlyphs scale f ts (glyphIds bytes)).1 },
         (showGlyphs scale f ts (glyphIds bytes)).2 ++ [], ?_, ?_⟩
  · simp only [drawText, hts, hf, drawTextLoop]
  · exact ⟨(showGlyphs scale f ts (glyphIds bytes)).1, rfl,
      showGlyphs_position scale f ts (glyphIds bytes), glyphIds_len bytes⟩

/-- Witness for claim C8: two complete glyph ids (1 then 0, widths 300
and 500) and a dropped trailing byte. -/
theorem tj_string_advance_witness :
    ∃ gs' ems, drawText scaleEx gsEx [Object.string [0, 1, 0, 0, 7]] = Outcome.ok (gs', ems)
      ∧ ∃ ts', gs'.text_state = some ts'
        ∧ ts'.position
            = tsEx.position + ((glyphIds [0, 1, 0, 0, 7]).map (fun g => fontEx.widths.getD g 0)).sum
        ∧ (glyphIds [0, 1, 0, 0, 7]).length = ([0, 1, 0, 0, 7] : List Nat).length / 2 :=
  tj_string_advance scaleEx gsEx tsEx fontEx [0, 1, 0, 0, 7] rfl rfl

/-- Claim C9: when the `Tf` name resolves in the font map and a text
state is active, a size operand that cannot be coerced to a number hits
the unchecked `unwrap` and panics (it does not return an error value);
the unwrap is unreachable when the size operand is an `Integer` or a
`Real`, which instead set the font and size. -/
theorem tf_unwrap_behavior (scale : DeviceScale) (fm : List (String × Font))
    (gs : GraphicsState) (rest : List GraphicsState) (ts : TextState) (fo : Font) (n : String)
    (hts : gs.text_state = some ts) (hlook : lookupD fm n = some fo) :
    (∀ sz : Object, sz.asFloat = none →
        applyOp scale fm (State.mk (gs :: rest)) (Operation.mk "Tf" [Object.name n, sz])
          = Outcome.panicked "called unwrap on Err")
    ∧ (∀ i : ℤ,
        applyOp scale fm (State.mk (gs :: rest)) (Operation.mk "Tf" [Object.name n, Object.integer i])
          = Outcome.ok (State.mk
              ({ gs with text_state := some { ts with font := some fo, size := (i : ℚ) } } :: rest), []))
    ∧ (∀ r : ℚ,
        applyOp scale fm (State.mk (gs :: rest)) (Operation.mk "Tf" [Object.name n, Object.real r])
          = Outcome.ok (State.mk
              ({ gs with text_state := some { ts with font := some fo, size := r } } :: rest), [])) := by
  have h0 : ∀ sz : Object,
      applyOp scale fm (State.mk (gs :: rest)) (Operation.mk "Tf" [Object.name n, sz])
        = Outcome.bind
            ((match lookupD fm n with
              | some font2 =>
                  match gs.text_state with
                  | some ts2 =>
                      match sz.asFloat with
                      | some v =>
                          Outcome.ok ({ gs with
                            text_state := some { ts2 with font := some font2, size := v } }, [])
                      | none => Outcome.panicked "called unwrap on Err"
                  | none => Outcome.ok (gs, [])
              | none => Outcome.ok (gs, [])) : Outcome (GraphicsState × List Emission))
            (fun r => Outcome.ok (State.mk (r.1 :: rest), r.2)) :=
    fun _ => rfl
  refine ⟨?_, ?_, ?_⟩
  · intro sz hsz
    rw [h0, hlook, hts, hsz]
    exact rfl
  · intro i
    rw [h0, hlook, hts]
    exact rfl
  · intro r
    rw [h0, hlook, hts]
    exact rfl

/-- Witness for claim C9: a `Name` size operand panics; an `Integer`
size operand succeeds. -/
theorem tf_unwrap_behavior_witness :
    applyOp scaleEx [("F", fontEx)] (State.mk [gsEx])
        (Operation.mk "Tf" [Object.name "F", Object.name "X"])
      = Outcome.panicked "called unwrap on Err"
    ∧ applyOp scaleEx [("F", fontEx)] (State.mk [gsEx])
        (Operation.mk "Tf" [Object.name "F", Object.integer 12])
      = Outcome.ok (State.mk
          [{ gsEx with text_state := some { tsEx with font := some fontEx, size := ((12 : ℤ) : ℚ) } }], []) :=
  ⟨(tf_unwrap_behavior scaleEx [("F", fontEx)] gsEx [] tsEx fontEx "F" rfl rfl).1
      (Object.name "X") rfl,
   (tf_unwrap_behavior scaleEx [("F", fontEx)] gsEx [] tsEx fontEx "F" rfl rfl).2.1 12⟩
